import Mathlib

/-!
Shallow embedding of the NeuroScroll behavioural-analysis core
(metrics engine, AI classifier label logic, AI analysis scheduler)
and proofs of the specification claims about it.

Numbers are modelled by `ℚ` (the source operates on JS numbers; every
arithmetic step the claims touch is exact). A JS value that can be
`undefined` is modelled by `Option`; JS truthiness of an optional number
is "present and nonzero". `Math.sqrt` (used only by metrics no claim
constrains numerically) is passed in as an explicit function parameter.
`Date.prototype.getHours` is modelled as hour-of-day extraction from the
epoch timestamp. `Array.prototype.sort`, specified stable, is modelled by
stable insertion sort with the comparator's induced total preorder.
-/

namespace NeuroScroll

/-- `VideoInteraction.action` field: one of enter, leave, replay, scroll. -/
inductive Action
| enter
| leave
| replay
| scroll
deriving DecidableEq

/-- The `metadata` object of a `VideoInteraction`; only `dwellTime` is read
by the core under analysis. `none` models an absent field. -/
structure InteractionMetadata where
  dwellTime : Option ℚ := none
deriving DecidableEq

/-- `VideoInteraction` record from `types/index.ts`. -/
structure VideoInteraction where
  id : String
  videoId : String
  sessionId : String
  timestamp : ℚ
  action : Action
  metadata : InteractionMetadata
deriving DecidableEq

/-- `ViewingSession` record. `interactions = none` models a session whose
`interactions` field is not an array (`Array.isArray` fails). -/
structure ViewingSession where
  id : String
  startTime : ℚ
  endTime : Option ℚ := none
  isActive : Bool := false
  videoCount : ℚ := 0
  totalDwellTime : ℚ := 0
  interactions : Option (List VideoInteraction)
deriving DecidableEq

/-- `FatiguePoint` record: dwell time (seconds) against video order. -/
structure FatiguePoint where
  videoOrder : ℕ
  dwellTime : ℚ
  timestamp : ℚ
deriving DecidableEq, Inhabited

/-- `BingeBurst` record produced by `detectBingeBursts`. -/
structure BingeBurst where
  startIndex : ℕ
  endIndex : ℕ
  length : ℕ
  averageDwellTime : ℚ
  timestamp : ℚ
deriving DecidableEq

/-- The `'healthy' | 'doomscroll' | 'unknown'` classification strings. -/
inductive Health
| healthy
| doomscroll
| unknown
deriving DecidableEq

/-- The `'explorer' | 'sampler' | 'doomscroller' | 'unknown'` archetypes. -/
inductive Archetype
| explorer
| sampler
| doomscroller
| unknown
deriving DecidableEq

/-- `ComputedMetrics` record from `types/index.ts`. -/
structure ComputedMetrics where
  dopamineSpikeIndex : ℚ
  attentionSpan : ℚ
  replaySensitivity : ℕ
  sessionLength : ℚ
  fatiguePoints : List FatiguePoint
  circadianDrift : Bool
  healthClassification : Health
  confidence : ℚ
  timestamp : ℚ
  scrollMomentum : ℚ
  rewardVariability : ℚ
  bingeBursts : List BingeBurst
  engagementHalfLife : ℕ
  cognitiveLoad : ℚ
  habitStrength : ℚ
  noveltyBias : ℚ
  sessionArchetype : Archetype
deriving DecidableEq

/-- JS truthiness of `metadata?.dwellTime`: the field is present and
nonzero (`0` is falsy). -/
def dwellTruthy (m : InteractionMetadata) : Bool :=
  match m.dwellTime with
  | some d => decide (d ≠ 0)
  | none => false

/-- `Date.prototype.getHours` on an epoch-milliseconds timestamp,
modelled without a timezone offset: hour-of-day in `[0, 24)`. -/
def hoursOfTimestamp (t : ℚ) : ℤ :=
  ⌊t / 3600000⌋ % 24

namespace MetricsEngine

/-- `calculateSessionLength`: minutes between start and end, with
`Date.now()` (the `now` parameter) when `endTime` is unset. -/
def calculateSessionLength (now : ℚ) (session : ViewingSession) : ℚ :=
  match session.endTime with
  | none => (now - session.startTime) / 60000
  | some e => (e - session.startTime) / 60000

/-- `calculateDopamineSpikeIndex`: enter-event count divided by the
average dwell time (seconds) of leave events carrying a dwell time. -/
def calculateDopamineSpikeIndex (interactions : List VideoInteraction) : ℚ :=
  let enterEvents := interactions.filter fun i => decide (i.action = Action.enter)
  let leaveEvents := interactions.filter fun i =>
    decide (i.action = Action.leave) && dwellTruthy i.metadata
  if enterEvents.length = 0 ∨ leaveEvents.length = 0 then 0
  else
    let totalDwellTime := leaveEvents.foldl
      (fun sum i =>
        let d := i.metadata.dwellTime.getD 0
        sum + (if 0 < d then d else 0)) (0 : ℚ)
    let averageDwellTime := totalDwellTime / leaveEvents.length
    if averageDwellTime = 0 then 0
    else max 0 ((enterEvents.length : ℚ) / (averageDwellTime / 1000))

/-- `calculateAttentionSpan`: EWMA (α = 0.3) of the positive dwell times
of leave events, converted to seconds. -/
def calculateAttentionSpan (interactions : List VideoInteraction) : ℚ :=
  if interactions.length = 0 then 0
  else
    let dwellTimes := ((interactions.filter fun i =>
        decide (i.action = Action.leave) && dwellTruthy i.metadata).map
        fun i => i.metadata.dwellTime.getD 0).filter fun t => decide (0 < t)
    match dwellTimes with
    | [] => 0
    | d :: rest =>
      let ewma := rest.foldl (fun e t => (3 / 10 : ℚ) * t + (7 / 10 : ℚ) * e) d
      max 0 (ewma / 1000)

/-- `calculateReplaySensitivity`: count of replay actions. -/
def calculateReplaySensitivity (interactions : List VideoInteraction) : ℕ :=
  (interactions.filter fun i => decide (i.action = Action.replay)).length

/-- The insertion-order list of first-entered video ids: the model of the
`videoSequence` map built by `generateFatiguePoints` (JS `Map` preserves
insertion order, and the stored order is the insertion index). -/
def enterSeq (interactions : List VideoInteraction) : List String :=
  (interactions.filter fun i => decide (i.action = Action.enter)).foldl
    (fun acc i => if i.videoId ∈ acc then acc else acc ++ [i.videoId]) []

/-- Sort relation used for fatigue points: the comparator
`(a, b) => a.videoOrder - b.videoOrder`. -/
def fpLE (a b : FatiguePoint) : Prop :=
  a.videoOrder ≤ b.videoOrder

instance : DecidableRel fpLE := fun a b => inferInstanceAs (Decidable (a.videoOrder ≤ b.videoOrder))

instance : IsTotal FatiguePoint fpLE := ⟨fun a b => Nat.le_total a.videoOrder b.videoOrder⟩

instance : IsTrans FatiguePoint fpLE := ⟨fun _ _ _ h h2 => Nat.le_trans h h2⟩

/-- The fatigue points pushed by `generateFatiguePoints` before sorting:
one per leave interaction with a truthy dwell time whose video id is in
the video-sequence map. -/
def rawFatiguePoints (interactions : List VideoInteraction) : List FatiguePoint :=
  (interactions.filter fun i =>
    decide (i.action = Action.leave) && dwellTruthy i.metadata).filterMap
    fun i => (List.findIdx? (fun v => v == i.videoId) (enterSeq interactions)).map
      fun order =>
        { videoOrder := order
          dwellTime := i.metadata.dwellTime.getD 0 / 1000
          timestamp := i.timestamp }

/-- `generateFatiguePoints`: raw points sorted ascending by video order. -/
def generateFatiguePoints (interactions : List VideoInteraction) : List FatiguePoint :=
  List.insertionSort fpLE (rawFatiguePoints interactions)

/-- `detectCircadianDrift`: flags sessions whose start or end hour falls
in the 23:00–06:00 window. -/
def detectCircadianDrift (startTime sessionLengthMinutes : ℚ) : Bool :=
  let startHour := hoursOfTimestamp startTime
  let endHour := hoursOfTimestamp (startTime + sessionLengthMinutes * 60000)
  let isStartInDriftWindow := decide (23 ≤ startHour) || decide (startHour < 6)
  let isEndInDriftWindow := decide (23 ≤ endHour) || decide (endHour < 6)
  let spansCircadianWindow := decide (23 ≤ startHour) && decide (endHour < 6)
  isStartInDriftWindow || isEndInDriftWindow || spansCircadianWindow

/-- `calculateFatigueSlope`: linear-regression slope of
(videoOrder, dwellTime); the JS `NaN → 0` guard coincides with rational
division by zero yielding `0`. -/
def calculateFatigueSlope (fatiguePoints : List FatiguePoint) : ℚ :=
  if fatiguePoints.length < 2 then 0
  else
    let n : ℚ := fatiguePoints.length
    let sumX := fatiguePoints.foldl (fun sum p => sum + (p.videoOrder : ℚ)) (0 : ℚ)
    let sumY := fatiguePoints.foldl (fun sum p => sum + p.dwellTime) (0 : ℚ)
    let sumXY := fatiguePoints.foldl (fun sum p => sum + (p.videoOrder : ℚ) * p.dwellTime) (0 : ℚ)
    let sumXX := fatiguePoints.foldl (fun sum p => sum + (p.videoOrder : ℚ) * p.videoOrder) (0 : ℚ)
    (n * sumXY - sumX * sumY) / (n * sumXX - sumX * sumX)

/-- `analyzeSessionHealth`: counts healthy and doomscroll indicators. -/
def analyzeSessionHealth (metrics : ComputedMetrics) : Health :=
  let healthyIndicators :=
    [decide (10 < metrics.attentionSpan ∧ metrics.attentionSpan < 120),
     decide (metrics.dopamineSpikeIndex < 2),
     decide (metrics.replaySensitivity < 5),
     decide (metrics.sessionLength < 60),
     !metrics.circadianDrift].count true
  let doomscrollIndicators :=
    [decide (metrics.attentionSpan < 5),
     decide (5 < metrics.dopamineSpikeIndex),
     decide (10 < metrics.replaySensitivity),
     decide (120 < metrics.sessionLength),
     metrics.circadianDrift].count true
  if 3 ≤ healthyIndicators then Health.healthy
  else if 3 ≤ doomscrollIndicators then Health.doomscroll
  else Health.unknown

/-- `extractDwellTimes`: positive dwell times of leave events, seconds. -/
def extractDwellTimes (interactions : List VideoInteraction) : List ℚ :=
  ((interactions.filter fun i =>
    decide (i.action = Action.leave) && dwellTruthy i.metadata).map
    fun i => i.metadata.dwellTime.getD 0 / 1000).filter fun t => decide (0 < t)

/-- `calculateScrollMomentum`: fraction of dwell times under 3 s. -/
def calculateScrollMomentum (interactions : List VideoInteraction) : ℚ :=
  let dwellTimes := extractDwellTimes interactions
  if dwellTimes.length = 0 then 0
  else
    let quickSkips := (dwellTimes.filter fun t => decide (t < 3)).length
    max 0 (min 1 ((quickSkips : ℚ) / dwellTimes.length))

/-- `calculateRewardVariability`: `Math.sqrt` of the population variance
of the dwell times; the square root collaborator is the `msqrt`
parameter. -/
def calculateRewardVariability (msqrt : ℚ → ℚ) (dwellTimes : List ℚ) : ℚ :=
  if dwellTimes.length < 2 then 0
  else
    let mean := dwellTimes.foldl (· + ·) (0 : ℚ) / dwellTimes.length
    let variance := dwellTimes.foldl (fun sum t => sum + (t - mean) ^ 2) (0 : ℚ) / dwellTimes.length
    msqrt variance

/-- One step of the `detectBingeBursts` scan. The running state is the
loop index, the open burst (start index, collected dwell times and
timestamps, both in reverse push order is avoided: kept in order), and
the emitted bursts. -/
def bingeStep (state : ℕ × Option (ℕ × List ℚ × List ℚ) × List BingeBurst)
    (item : ℚ × ℚ) : ℕ × Option (ℕ × List ℚ × List ℚ) × List BingeBurst :=
  let i := state.1
  let current := state.2.1
  let bursts := state.2.2
  if item.1 < 5 then
    match current with
    | none => (i + 1, some (i, [item.1], [item.2]), bursts)
    | some (s, ds, ts) => (i + 1, some (s, ds ++ [item.1], ts ++ [item.2]), bursts)
  else
    match current with
    | some (s, ds, ts) =>
      if 5 ≤ ds.length then
        (i + 1, none, bursts ++
          [{ startIndex := s
             endIndex := s + ds.length - 1
             length := ds.length
             averageDwellTime := ds.foldl (· + ·) (0 : ℚ) / ds.length
             timestamp := ts.headD 0 }])
      else (i + 1, none, bursts)
    | none => (i + 1, none, bursts)

/-- `detectBingeBursts`: maximal runs of at least five consecutive dwell
times under five seconds, over the leave events with truthy dwell. -/
def detectBingeBursts (interactions : List VideoInteraction) : List BingeBurst :=
  let items := (interactions.filter fun i =>
    decide (i.action = Action.leave) && dwellTruthy i.metadata).map
    fun i => (i.metadata.dwellTime.getD 0 / 1000, i.timestamp)
  let final := items.foldl bingeStep (0, none, [])
  match final.2.1 with
  | some (s, ds, ts) =>
    if 5 ≤ ds.length then
      final.2.2 ++
        [{ startIndex := s
           endIndex := s + ds.length - 1
           length := ds.length
           averageDwellTime := ds.foldl (· + ·) (0 : ℚ) / ds.length
           timestamp := ts.headD 0 }]
    else final.2.2
  | none => final.2.2

/-- The initial attention: average dwell time of the first three sorted
fatigue points. -/
def initialAttention (sorted : List FatiguePoint) : ℚ :=
  ((sorted.take 3).foldl (fun sum p => sum + p.dwellTime) (0 : ℚ)) / 3

/-- The 3-point trailing moving average ending at index `i` of the sorted
fatigue points (the loop body is only reached with `3 ≤ i`, where the
window size is always 3). -/
def movingAvg3 (sorted : List FatiguePoint) (i : ℕ) : ℚ :=
  (((sorted.drop (i - 2)).take 3).foldl (fun sum p => sum + p.dwellTime) (0 : ℚ)) / 3

/-- `calculateEngagementHalfLife`: first index from the 4th point on at
which the 3-point moving average drops to half the initial 3-point
average; the last point's video order if it never does; 0 below 3
points. -/
def calculateEngagementHalfLife (fatiguePoints : List FatiguePoint) : ℕ :=
  if fatiguePoints.length < 3 then 0
  else
    let sorted := List.insertionSort fpLE fatiguePoints
    let halfAttention := initialAttention sorted / 2
    match (List.range' 3 (sorted.length - 3)).find?
        (fun i => decide (movingAvg3 sorted i ≤ halfAttention)) with
    | some i => ((sorted.drop i).headD default).videoOrder
    | none => (sorted.getLast?.getD default).videoOrder

/-- `calculateCognitiveLoad`: scroll events plus sub-2 s leaves, over the
interaction count. -/
def calculateCognitiveLoad (interactions : List VideoInteraction) : ℚ :=
  if interactions.length = 0 then 0
  else
    let scrollEvents := (interactions.filter fun i =>
      decide (i.action = Action.scroll)).length
    let rapidTransitions := (interactions.filter fun i =>
      decide (i.action = Action.leave) && dwellTruthy i.metadata &&
        decide (i.metadata.dwellTime.getD 0 < 2000)).length
    max 0 (min 1 (((scrollEvents : ℚ) + rapidTransitions) / interactions.length))

/-- `calculateHabitStrength`: one minus the coefficient of variation of
the dwell times, floored at 0 and capped at 1. -/
def calculateHabitStrength (msqrt : ℚ → ℚ) (interactions : List VideoInteraction) : ℚ :=
  let dwellTimes := extractDwellTimes interactions
  if dwellTimes.length < 3 then 0
  else
    let mean := dwellTimes.foldl (· + ·) (0 : ℚ) / dwellTimes.length
    let variance := dwellTimes.foldl (fun sum t => sum + (t - mean) ^ 2) (0 : ℚ) / dwellTimes.length
    if mean = 0 then 0
    else min 1 (max 0 (1 - msqrt variance / mean))

/-- `calculateNoveltyBias`: distinct entered video ids over enter
events. -/
def calculateNoveltyBias (interactions : List VideoInteraction) : ℚ :=
  let videoInteractions := interactions.filter fun i => decide (i.action = Action.enter)
  if videoInteractions.length = 0 then 0
  else
    let uniqueVideos := ((videoInteractions.map fun i => i.videoId).dedup).length
    max 0 (min 1 ((uniqueVideos : ℚ) / videoInteractions.length))

/-- `classifySessionArchetype`: rule table on attention span, scroll
momentum and binge bursts. -/
def classifySessionArchetype (metrics : ComputedMetrics) : Archetype :=
  if metrics.sessionLength < 1 / 2 ∨ metrics.attentionSpan = 0 then Archetype.unknown
  else
    let highAttention := decide (15 < metrics.attentionSpan)
    let moderateAttention := decide (8 < metrics.attentionSpan ∧ metrics.attentionSpan ≤ 15)
    let lowAttention := decide (metrics.attentionSpan ≤ 8)
    let lowMomentum := decide (metrics.scrollMomentum < 3 / 10)
    let moderateMomentum := decide (3 / 10 ≤ metrics.scrollMomentum ∧ metrics.scrollMomentum < 3 / 5)
    let highMomentum := decide (3 / 5 ≤ metrics.scrollMomentum)
    let manyBursts := decide (2 ≤ metrics.bingeBursts.length)
    if highAttention && lowMomentum then Archetype.explorer
    else if lowAttention && (highMomentum || manyBursts) then Archetype.doomscroller
    else if moderateAttention && moderateMomentum then Archetype.sampler
    else if highMomentum || manyBursts then Archetype.doomscroller
    else if highAttention then Archetype.explorer
    else Archetype.sampler

/-- The safe default metrics returned by `computeMetrics` on invalid
session data (the `catch` branch). -/
def defaultMetrics (now : ℚ) : ComputedMetrics :=
  { dopamineSpikeIndex := 0
    attentionSpan := 0
    replaySensitivity := 0
    sessionLength := 0
    fatiguePoints := []
    circadianDrift := false
    healthClassification := Health.unknown
    confidence := 0
    timestamp := now
    scrollMomentum := 0
    rewardVariability := 0
    bingeBursts := []
    engagementHalfLife := 0
    cognitiveLoad := 0
    habitStrength := 0
    noveltyBias := 0
    sessionArchetype := Archetype.unknown }

/-- `computeMetrics`: the full metrics computation; `none` input models a
null or undefined session, `interactions = none` a non-array field, and
`now` models `Date.now()`. -/
def computeMetrics (msqrt : ℚ → ℚ) (now : ℚ) (sessionOpt : Option ViewingSession) :
    ComputedMetrics :=
  match sessionOpt with
  | none => defaultMetrics now
  | some session =>
    match session.interactions with
    | none => defaultMetrics now
    | some interactions =>
      let sessionLength := calculateSessionLength now session
      let fatiguePoints := generateFatiguePoints interactions
      let dwellTimes := extractDwellTimes interactions
      let base : ComputedMetrics :=
        { dopamineSpikeIndex := calculateDopamineSpikeIndex interactions
          attentionSpan := calculateAttentionSpan interactions
          replaySensitivity := calculateReplaySensitivity interactions
          sessionLength := sessionLength
          fatiguePoints := fatiguePoints
          circadianDrift := detectCircadianDrift session.startTime sessionLength
          healthClassification := Health.unknown
          confidence := 4 / 5
          timestamp := now
          scrollMomentum := calculateScrollMomentum interactions
          rewardVariability := calculateRewardVariability msqrt dwellTimes
          bingeBursts := detectBingeBursts interactions
          engagementHalfLife := calculateEngagementHalfLife fatiguePoints
          cognitiveLoad := calculateCognitiveLoad interactions
          habitStrength := calculateHabitStrength msqrt interactions
          noveltyBias := calculateNoveltyBias interactions
          sessionArchetype := Archetype.unknown }
      let withHealth := { base with healthClassification := analyzeSessionHealth base }
      { withHealth with sessionArchetype := classifySessionArchetype withHealth }

end MetricsEngine

namespace AIClassifier

/-- `SessionFeatures` record extracted for the model. -/
structure SessionFeatures where
  sessionLength : ℚ
  attentionSpan : ℚ
  dopamineSpikeIndex : ℚ
  replaySensitivity : ℕ
  fatigueSlope : ℚ
  circadianDrift : ℚ
  videoCount : ℚ
  timeOfDay : ℤ
  scrollMomentum : ℚ
  rewardVariability : ℚ
  bingeBursts : ℕ
  engagementHalfLife : ℕ
deriving DecidableEq

/-- `AIClassificationResult` record. -/
structure AIClassificationResult where
  classification : Health
  confidence : ℚ
  features : SessionFeatures
  modelVersion : String
deriving DecidableEq

/-- `extractFeatures`: projects session and metrics into the feature
record (the JS `|| 0` guards only remap `NaN`, absent from this model). -/
def extractFeatures (session : ViewingSession) (metrics : ComputedMetrics) :
    SessionFeatures :=
  { sessionLength := metrics.sessionLength
    attentionSpan := metrics.attentionSpan
    dopamineSpikeIndex := metrics.dopamineSpikeIndex
    replaySensitivity := metrics.replaySensitivity
    fatigueSlope := MetricsEngine.calculateFatigueSlope metrics.fatiguePoints
    circadianDrift := if metrics.circadianDrift then 1 else 0
    videoCount := session.videoCount
    timeOfDay := hoursOfTimestamp session.startTime
    scrollMomentum := metrics.scrollMomentum
    rewardVariability := metrics.rewardVariability
    bingeBursts := metrics.bingeBursts.length
    engagementHalfLife := metrics.engagementHalfLife }

/-- Outcome of the opaque prediction model inside `classifySession`:
either the scalar probability it returned, or a failure (model
unavailable, or `predict` threw). -/
inductive ModelOutcome
| ok (p : ℚ)
| err

/-- The loaded model version string. -/
def modelVersionString : String := "1.0.0"

/-- `classifySession`: maps the model probability to a classification
band, or degrades to the rule-based fallback when the model fails. -/
def classifySession (outcome : ModelOutcome) (session : ViewingSession)
    (metrics : ComputedMetrics) : AIClassificationResult :=
  match outcome with
  | ModelOutcome.ok p =>
    let classification :=
      if 7 / 10 < p then Health.doomscroll
      else if p < 3 / 10 then Health.healthy
      else Health.unknown
    { classification := classification
      confidence := if classification = Health.unknown then 1 / 2 else |p - 1 / 2| * 2
      features := extractFeatures session metrics
      modelVersion := modelVersionString }
  | ModelOutcome.err =>
    { classification := metrics.healthClassification
      confidence := 3 / 10
      features := extractFeatures session metrics
      modelVersion := "fallback" }

end AIClassifier

namespace AIScheduler

/-- The `'high' | 'normal' | 'low'` scheduling priorities. -/
inductive SchedPriority
| high
| normal
| low
deriving DecidableEq

/-- The `priorityOrder` ranking used by `sortQueue`. -/
def priorityOrder : SchedPriority → ℕ
| SchedPriority.high => 0
| SchedPriority.normal => 1
| SchedPriority.low => 2

/-- `ScheduledAnalysis` queue entry. -/
structure ScheduledAnalysis where
  sessionId : String
  session : ViewingSession
  metrics : ComputedMetrics
  priority : SchedPriority
  timestamp : ℚ
  retryCount : ℕ
deriving DecidableEq

/-- The total preorder induced by the `sortQueue` comparator: priority
rank first, then timestamp ascending. -/
def schedLE (a b : ScheduledAnalysis) : Prop :=
  priorityOrder a.priority < priorityOrder b.priority ∨
    (priorityOrder a.priority = priorityOrder b.priority ∧ a.timestamp ≤ b.timestamp)

instance : DecidableRel schedLE := fun a b =>
  inferInstanceAs (Decidable (priorityOrder a.priority < priorityOrder b.priority ∨
    (priorityOrder a.priority = priorityOrder b.priority ∧ a.timestamp ≤ b.timestamp)))

instance : IsTotal ScheduledAnalysis schedLE :=
  ⟨fun a b => by
    rcases Nat.lt_trichotomy (priorityOrder a.priority) (priorityOrder b.priority) with h | h | h
    · exact Or.inl (Or.inl h)
    · rcases le_total a.timestamp b.timestamp with ht | ht
      · exact Or.inl (Or.inr ⟨h, ht⟩)
      · exact Or.inr (Or.inr ⟨h.symm, ht⟩)
    · exact Or.inr (Or.inl h)⟩

instance : IsTrans ScheduledAnalysis schedLE :=
  ⟨fun a b c hab hbc => by
    rcases hab with h1 | ⟨h1, t1⟩
    · rcases hbc with h2 | ⟨h2, _⟩
      · exact Or.inl (h1.trans h2)
      · exact Or.inl (h2 ▸ h1)
    · rcases hbc with h2 | ⟨h2, t2⟩
      · exact Or.inl (h1 ▸ h2)
      · exact Or.inr ⟨h1.trans h2, t1.trans t2⟩⟩

/-- `sortQueue`: stable sort by (priority rank, timestamp). -/
def sortQueue (q : List ScheduledAnalysis) : List ScheduledAnalysis :=
  List.insertionSort schedLE q

/-- `AnalysisResult` delivered to a callback. -/
structure AnalysisResult where
  sessionId : String
  result : AIClassifier.AIClassificationResult
  processingTime : ℚ
  success : Bool
  error : Option String
deriving DecidableEq

/-- Scheduler state: the queue, the set of sessionIds with a registered
callback (the keys of the `callbacks` map), and the log of callback
invocations performed so far (the observable effect of calling a
callback). -/
structure SchedState where
  analysisQueue : List ScheduledAnalysis
  callbacks : List String
  firedEvents : List AnalysisResult
deriving DecidableEq

/-- The scheduler state at construction. -/
def initState : SchedState :=
  { analysisQueue := [], callbacks := [], firedEvents := [] }

/-- `callbacks.set`: register a callback key (keys are kept distinct). -/
def registerCallback (id : String) (cbs : List String) : List String :=
  if id ∈ cbs then cbs else cbs ++ [id]

/-- `scheduleAnalysis`: drop any queued entry with the same sessionId,
push the new entry, re-sort, and register the callback if given. -/
def scheduleAnalysis (session : ViewingSession) (metrics : ComputedMetrics)
    (priority : SchedPriority) (now : ℚ) (hasCallback : Bool)
    (st : SchedState) : SchedState :=
  let analysis : ScheduledAnalysis :=
    { sessionId := session.id
      session := session
      metrics := metrics
      priority := priority
      timestamp := now
      retryCount := 0 }
  { st with
    analysisQueue :=
      sortQueue ((st.analysisQueue.filter fun a => a.sessionId != session.id) ++ [analysis])
    callbacks := if hasCallback then registerCallback session.id st.callbacks else st.callbacks }

/-- `scheduleRealTimeAnalysis`: wrapper forcing high priority. -/
def scheduleRealTimeAnalysis (session : ViewingSession) (metrics : ComputedMetrics)
    (now : ℚ) (hasCallback : Bool) (st : SchedState) : SchedState :=
  scheduleAnalysis session metrics SchedPriority.high now hasCallback st

/-- `maxRetries` constant. -/
def maxRetries : ℕ := 3

/-- `batchSize` constant. -/
def batchSize : ℕ := 5

/-- The terminal failure result passed to a callback when retries are
exhausted (JS `error || ...` treats the empty string as falsy). -/
def terminalResult (a : ScheduledAnalysis) (err : Option String) : AnalysisResult :=
  { sessionId := a.sessionId
    result :=
      { classification := Health.unknown
        confidence := 0
        features := AIClassifier.extractFeatures a.session a.metrics
        modelVersion := "failed" }
    processingTime := 0
    success := false
    error := some (match err with
      | some e => if e = "" then "Max retries exceeded" else e
      | none => "Max retries exceeded") }

/-- `handleFailure`: requeue with incremented retryCount, low priority
and a backoff timestamp while within `maxRetries`; otherwise fire the
terminal callback (when registered) and drop the entry. -/
def handleFailure (now : ℚ) (err : Option String) (a : ScheduledAnalysis)
    (st : SchedState) : SchedState :=
  if a.retryCount + 1 ≤ maxRetries then
    { st with
      analysisQueue := sortQueue (st.analysisQueue ++
        [{ a with
             retryCount := a.retryCount + 1
             priority := SchedPriority.low
             timestamp := now + ((a.retryCount + 1 : ℕ) : ℚ) * 2000 }]) }
  else if a.sessionId ∈ st.callbacks then
    { st with
      callbacks := st.callbacks.filter fun c => c != a.sessionId
      firedEvents := st.firedEvents ++ [terminalResult a err] }
  else st

/-- The success result passed to a callback for one batch entry. -/
def successResult (resultOf : ScheduledAnalysis → AIClassifier.AIClassificationResult)
    (procTime : ℚ) (a : ScheduledAnalysis) : AnalysisResult :=
  { sessionId := a.sessionId
    result := resultOf a
    processingTime := procTime
    success := true
    error := none }

/-- Handling of one batch entry inside `processQueue`: classification
failure goes to `handleFailure`, success fires the registered callback
and removes its registration. -/
def stepEntry (now : ℚ) (fails : ScheduledAnalysis → Bool)
    (errOf : ScheduledAnalysis → Option String)
    (resultOf : ScheduledAnalysis → AIClassifier.AIClassificationResult)
    (procTime : ℚ) (st : SchedState) (a : ScheduledAnalysis) : SchedState :=
  if fails a then handleFailure now (errOf a) a st
  else if a.sessionId ∈ st.callbacks then
    { st with
      firedEvents := st.firedEvents ++ [successResult resultOf procTime a]
      callbacks := st.callbacks.filter fun c => c != a.sessionId }
  else st

/-- One `processQueue` tick: splice up to `batchSize` entries off the
queue and handle each classification outcome in order. The classifier
outcomes of the tick are the parameters `fails`, `errOf`, `resultOf`
and `procTime`. -/
def tick (now : ℚ) (fails : ScheduledAnalysis → Bool)
    (errOf : ScheduledAnalysis → Option String)
    (resultOf : ScheduledAnalysis → AIClassifier.AIClassificationResult)
    (procTime : ℚ) (st : SchedState) : SchedState :=
  if st.analysisQueue.isEmpty then st
  else
    let batch := st.analysisQueue.take batchSize
    let spliced := { st with analysisQueue := st.analysisQueue.drop batchSize }
    batch.foldl (stepEntry now fails errOf resultOf procTime) spliced

/-- `clearQueue`: discard all queued entries and callback keys. -/
def clearQueue (st : SchedState) : SchedState :=
  { st with analysisQueue := [], callbacks := [] }

/-- `clearSessionAnalysis`: discard the entries and callback key of one
session. -/
def clearSessionAnalysis (sessionId : String) (st : SchedState) : SchedState :=
  { st with
    analysisQueue := st.analysisQueue.filter fun a => a.sessionId != sessionId
    callbacks := st.callbacks.filter fun c => c != sessionId }

/-- The scheduler states reachable from construction by any sequence of
schedule, tick, clear-session and clear-queue operations. -/
inductive Reachable : SchedState → Prop
| init : Reachable initState
| schedule (session : ViewingSession) (metrics : ComputedMetrics)
    (priority : SchedPriority) (now : ℚ) (hasCallback : Bool) (st : SchedState) :
    Reachable st → Reachable (scheduleAnalysis session metrics priority now hasCallback st)
| tick (now : ℚ) (fails : ScheduledAnalysis → Bool)
    (errOf : ScheduledAnalysis → Option String)
    (resultOf : ScheduledAnalysis → AIClassifier.AIClassificationResult)
    (procTime : ℚ) (st : SchedState) :
    Reachable st → Reachable (tick now fails errOf resultOf procTime st)
| clearSession (sessionId : String) (st : SchedState) :
    Reachable st → Reachable (clearSessionAnalysis sessionId st)
| clear (st : SchedState) : Reachable st → Reachable (clearQueue st)

end AIScheduler

/-! Concrete scenario data used to settle the claims. -/

/-- Square-root collaborator instantiation used for concrete scenarios
(its value never influences the fields the scenarios inspect). -/
def sqrtZero : ℚ → ℚ := fun _ => 0

/-- A leave interaction with a recorded dwell time (milliseconds). -/
def mkLeave (v : String) (d ts : ℚ) : VideoInteraction :=
  { id := "i", videoId := v, sessionId := "s", timestamp := ts,
    action := Action.leave, metadata := { dwellTime := some d } }

/-- An enter interaction. -/
def mkEnter (v : String) (ts : ℚ) : VideoInteraction :=
  { id := "i", videoId := v, sessionId := "s", timestamp := ts,
    action := Action.enter, metadata := {} }

/-- A well-formed session with an empty interaction list: ten minutes long,
starting at noon. -/
def emptyInteractionSession : ViewingSession :=
  { id := "s", startTime := 12 * 3600000, endTime := some (12 * 3600000 + 600000),
    interactions := some [] }

/-- A session whose only interaction is a leave with a recorded dwell time
for a video that was never entered. -/
def orphanLeaveSession : ViewingSession :=
  { id := "s", startTime := 0, interactions := some [mkLeave "v" 1000 5] }

/-- The 0-based order in which a video was first entered: its index in the
insertion-order list of first-entered videos. -/
def firstEnterOrder (interactions : List VideoInteraction) (v : String) : ℕ :=
  (List.findIdx? (fun w => w == v) (MetricsEngine.enterSeq interactions)).getD 0

/-- A dwell-time sequence with one run of `n` consecutive 2-second dwell
times, flanked by 10-second dwell times. -/
def burstProbe (n : ℕ) : List VideoInteraction :=
  [mkLeave "x" 10000 0] ++
    ((List.range n).map fun k => mkLeave "y" 2000 (100 + k)) ++
    [mkLeave "z" 10000 1000]

/-- A dwell-time sequence with one run of exactly five sub-5-second dwell
times of varying lengths (1, 2, 3, 4, 1 seconds), flanked by 10-second
dwell times. -/
def variedRun5 : List VideoInteraction :=
  [mkLeave "x" 10000 0, mkLeave "y" 1000 100, mkLeave "y" 2000 101,
   mkLeave "y" 3000 102, mkLeave "y" 4000 103, mkLeave "y" 1000 104,
   mkLeave "z" 10000 1000]

/-- Fatigue points with strictly decreasing dwell times 20, 16, 12, 8, 4,
2 seconds. -/
def decayPoints : List FatiguePoint :=
  [{ videoOrder := 0, dwellTime := 20, timestamp := 0 },
   { videoOrder := 1, dwellTime := 16, timestamp := 1 },
   { videoOrder := 2, dwellTime := 12, timestamp := 2 },
   { videoOrder := 3, dwellTime := 8, timestamp := 3 },
   { videoOrder := 4, dwellTime := 4, timestamp := 4 },
   { videoOrder := 5, dwellTime := 2, timestamp := 5 }]

/-- Fatigue points with a flat dwell sequence 10, 10, 10, 10 seconds. -/
def flatPoints : List FatiguePoint :=
  [{ videoOrder := 0, dwellTime := 10, timestamp := 0 },
   { videoOrder := 1, dwellTime := 10, timestamp := 1 },
   { videoOrder := 2, dwellTime := 10, timestamp := 2 },
   { videoOrder := 3, dwellTime := 10, timestamp := 3 }]

/-- A minimal session carrying only an id (for scheduler scenarios). -/
def idSession (i : String) : ViewingSession :=
  { id := i, startTime := 0, interactions := some [] }

/-- Default metrics value used to populate scheduler scenario entries. -/
def zeroMetrics : ComputedMetrics := MetricsEngine.defaultMetrics 0

/-- Scheduler state after scheduling three sessions with priorities low,
high, normal at strictly increasing timestamps 1, 2, 3. -/
def prioScenario : AIScheduler.SchedState :=
  AIScheduler.scheduleAnalysis (idSession "c") zeroMetrics AIScheduler.SchedPriority.normal 3 false
    (AIScheduler.scheduleAnalysis (idSession "b") zeroMetrics AIScheduler.SchedPriority.high 2 false
      (AIScheduler.scheduleAnalysis (idSession "a") zeroMetrics AIScheduler.SchedPriority.low 1 false
        AIScheduler.initState))

/-- One scheduler tick in which every classification in the batch fails
with message "boom". -/
def failTick (now : ℚ) (st : AIScheduler.SchedState) : AIScheduler.SchedState :=
  AIScheduler.tick now (fun _ => true) (fun _ => some "boom")
    (fun a => AIClassifier.classifySession AIClassifier.ModelOutcome.err a.session a.metrics)
    0 st

/-- Scheduler state with one session scheduled with a callback. -/
def retryScenario0 : AIScheduler.SchedState :=
  AIScheduler.scheduleAnalysis (idSession "s") zeroMetrics AIScheduler.SchedPriority.normal 0 true
    AIScheduler.initState

/-- The state after the scheduled entry fails classification in four
consecutive ticks. -/
def retryScenario4 : AIScheduler.SchedState :=
  failTick 4000 (failTick 3000 (failTick 2000 (failTick 1000 retryScenario0)))

/-- Interactions with no leave events: two enters, a replay, a scroll. -/
def noLeaveList : List VideoInteraction :=
  [mkEnter "a" 0,
   { id := "i", videoId := "a", sessionId := "s", timestamp := 1,
     action := Action.replay, metadata := {} },
   mkEnter "b" 2,
   { id := "i", videoId := "b", sessionId := "s", timestamp := 3,
     action := Action.scroll, metadata := {} }]

/-- A session with interactions but no leave events. -/
def noLeaveSession : ViewingSession :=
  { id := "s", startTime := 0, endTime := some 600000,
    interactions := some noLeaveList }

/-- A session whose interactions field is not an array. -/
def nonArraySession : ViewingSession :=
  { id := "s", startTime := 0, interactions := none }

/-- A queue entry that has not failed yet. -/
def probeEntry0 : AIScheduler.ScheduledAnalysis :=
  { sessionId := "x", session := idSession "x", metrics := zeroMetrics,
    priority := AIScheduler.SchedPriority.normal, timestamp := 0, retryCount := 0 }

/-- A queue entry that has already failed three times. -/
def probeEntry3 : AIScheduler.ScheduledAnalysis :=
  { sessionId := "x", session := idSession "x", metrics := zeroMetrics,
    priority := AIScheduler.SchedPriority.low, timestamp := 0, retryCount := 3 }


/-! ## Claim theorems -/

open MetricsEngine AIClassifier AIScheduler

/-- C4: for every model probability p produced during classifySession,
p > 0.7 yields "doomscroll" with confidence |p − 0.5|·2, p < 0.3 yields
"healthy" with confidence |p − 0.5|·2, and otherwise the classification
is "unknown" with confidence 0.5. -/
theorem classification_bands_of_probability :
    ∀ (p : ℚ) (s : ViewingSession) (m : ComputedMetrics),
    (7 / 10 < p →
      (classifySession (ModelOutcome.ok p) s m).classification = Health.doomscroll ∧
      (classifySession (ModelOutcome.ok p) s m).confidence = |p - 1 / 2| * 2) ∧
    (p < 3 / 10 →
      (classifySession (ModelOutcome.ok p) s m).classification = Health.healthy ∧
      (classifySession (ModelOutcome.ok p) s m).confidence = |p - 1 / 2| * 2) ∧
    (¬ 7 / 10 < p → ¬ p < 3 / 10 →
      (classifySession (ModelOutcome.ok p) s m).classification = Health.unknown ∧
      (classifySession (ModelOutcome.ok p) s m).confidence = 1 / 2) := by
  intro p s m
  refine ⟨fun h => ?_, fun h => ?_, fun h1 h2 => ?_⟩
  · have hn : ¬ p < 3 / 10 := by linarith
    simp [classifySession, h]
  · have hn : ¬ 7 / 10 < p := by linarith
    simp [classifySession, h, hn]
  · simp [classifySession, h1, h2]

/-- Witness for the classification bands at p = 0.9, 0.1 and 0.5. -/
theorem classification_bands_witness :
    (classifySession (ModelOutcome.ok (9 / 10)) (idSession "w") zeroMetrics).classification
      = Health.doomscroll ∧
    (classifySession (ModelOutcome.ok (1 / 10)) (idSession "w") zeroMetrics).classification
      = Health.healthy ∧
    (classifySession (ModelOutcome.ok (1 / 2)) (idSession "w") zeroMetrics).classification
      = Health.unknown ∧
    (classifySession (ModelOutcome.ok (1 / 2)) (idSession "w") zeroMetrics).confidence = 1 / 2 :=
  ⟨((classification_bands_of_probability (9 / 10) (idSession "w") zeroMetrics).1
      (by norm_num)).1,
   ((classification_bands_of_probability (1 / 10) (idSession "w") zeroMetrics).2.1
      (by norm_num)).1,
   ((classification_bands_of_probability (1 / 2) (idSession "w") zeroMetrics).2.2
      (by norm_num) (by norm_num)).1,
   ((classification_bands_of_probability (1 / 2) (idSession "w") zeroMetrics).2.2
      (by norm_num) (by norm_num)).2⟩

/-- C5: whenever the prediction model throws or is unavailable,
classifySession returns the metrics' own healthClassification with
confidence exactly 0.3 and modelVersion "fallback", propagating no
exception. -/
theorem classifier_fallback_on_model_error :
    ∀ (s : ViewingSession) (m : ComputedMetrics),
    classifySession ModelOutcome.err s m =
      { classification := m.healthClassification
        confidence := 3 / 10
        features := extractFeatures s m
        modelVersion := "fallback" } := by
  intro s m
  rfl

/-- C7: a synthetic run of exactly N consecutive sub-5-second dwell times
yields one burst of length N when N ≥ 5 and no burst when N < 5
(N ∈ 1, 4, 5, 6, 20), the burst carrying the run's average dwell time
and the timestamp of its first element. -/
theorem binge_burst_detection_runs :
    detectBingeBursts (burstProbe 1) = [] ∧
    detectBingeBursts (burstProbe 4) = [] ∧
    detectBingeBursts variedRun5 =
      [{ startIndex := 1, endIndex := 5, length := 5,
         averageDwellTime := 11 / 5, timestamp := 100 }] ∧
    detectBingeBursts (burstProbe 6) =
      [{ startIndex := 1, endIndex := 6, length := 6,
         averageDwellTime := 2, timestamp := 100 }] ∧
    detectBingeBursts (burstProbe 20) =
      [{ startIndex := 1, endIndex := 20, length := 20,
         averageDwellTime := 2, timestamp := 100 }] := by
  refine ⟨?_, ?_, ?_, ?_, ?_⟩ <;> with_unfolding_all rfl


/-- First-satisfier characterisation of `find?` over `List.range'`. -/
theorem find?_range'_eq_some {p : ℕ → Bool} {i : ℕ} : ∀ {s n : ℕ}, s ≤ i → i < s + n →
    (∀ j, s ≤ j → j < i → p j = false) → p i = true →
    (List.range' s n).find? p = some i := by
  intro s n
  induction n generalizing s with
  | zero => omega
  | succ n ih =>
    intro h1 h2 hb hp
    rw [List.range'_succ, List.find?_cons]
    by_cases hsi : s = i
    · subst hsi
      simp [hp]
    · have hps : p s = false := hb s le_rfl (by omega)
      simp only [hps]
      exact ih (by omega) (by omega) (fun j hj1 hj2 => hb j (by omega) hj2) hp

/-- C9: engagement half-life is 0 below three fatigue points; otherwise it
returns the video order of the first point (from the fourth on) whose
3-point moving average falls to at most half the initial 3-point average,
and the last point's video order when the threshold is never crossed; on
dwell times 20, 16, 12, 8, 4, 2 s it returns 4, earlier than the sequence
length 6, and on the flat sequence 10, 10, 10, 10 s it returns the last
index 3. -/
theorem engagement_half_life_spec :
    (∀ pts : List FatiguePoint, pts.length < 3 → calculateEngagementHalfLife pts = 0) ∧
    (∀ (pts : List FatiguePoint) (i : ℕ), 3 ≤ pts.length → 3 ≤ i → i < pts.length →
      (∀ j, 3 ≤ j → j < i →
        ¬ movingAvg3 (List.insertionSort fpLE pts) j
            ≤ initialAttention (List.insertionSort fpLE pts) / 2) →
      movingAvg3 (List.insertionSort fpLE pts) i
          ≤ initialAttention (List.insertionSort fpLE pts) / 2 →
      calculateEngagementHalfLife pts =
        (((List.insertionSort fpLE pts).drop i).headD default).videoOrder) ∧
    (∀ pts : List FatiguePoint, 3 ≤ pts.length →
      (∀ j, 3 ≤ j → j < pts.length →
        ¬ movingAvg3 (List.insertionSort fpLE pts) j
            ≤ initialAttention (List.insertionSort fpLE pts) / 2) →
      calculateEngagementHalfLife pts =
        ((List.insertionSort fpLE pts).getLast?.getD default).videoOrder) ∧
    (calculateEngagementHalfLife decayPoints = 4 ∧ 4 < decayPoints.length) ∧
    (calculateEngagementHalfLife flatPoints = 3 ∧
      flatPoints.getLast?.map FatiguePoint.videoOrder = some 3) := by
  refine ⟨?_, ?_, ?_, ⟨?_, by decide⟩, ⟨?_, by decide⟩⟩
  · intro pts h
    simp only [calculateEngagementHalfLife]
    rw [if_pos h]
  · intro pts i h3 hi1 hi2 hbefore hcross
    simp only [calculateEngagementHalfLife]
    rw [if_neg (by omega)]
    have hfind : (List.range' 3 ((List.insertionSort fpLE pts).length - 3)).find?
        (fun j => decide (movingAvg3 (List.insertionSort fpLE pts) j
          ≤ initialAttention (List.insertionSort fpLE pts) / 2)) = some i := by
      apply find?_range'_eq_some hi1
      · rw [List.length_insertionSort]
        omega
      · intro j hj1 hj2
        simpa using hbefore j hj1 hj2
      · simpa using hcross
    rw [hfind]
  · intro pts h3 hnever
    simp only [calculateEngagementHalfLife]
    rw [if_neg (by omega)]
    have hfind : (List.range' 3 ((List.insertionSort fpLE pts).length - 3)).find?
        (fun j => decide (movingAvg3 (List.insertionSort fpLE pts) j
          ≤ initialAttention (List.insertionSort fpLE pts) / 2)) = none := by
      rw [List.find?_eq_none]
      intro x hx
      rw [List.mem_range'_1] at hx
      have hlen : (List.insertionSort fpLE pts).length = pts.length :=
        List.length_insertionSort fpLE pts
      simpa using hnever x hx.1 (by omega)
    rw [hfind]
  · with_unfolding_all rfl
  · with_unfolding_all rfl

/-- Witness for the engagement half-life theorem: the empty list is below
three points and yields 0, and the flat sequence never crosses half, so
the last video order is returned. -/
theorem engagement_half_life_witness :
    calculateEngagementHalfLife ([] : List FatiguePoint) = 0 ∧
    calculateEngagementHalfLife flatPoints =
      ((List.insertionSort fpLE flatPoints).getLast?.getD default).videoOrder := by
  constructor
  · exact engagement_half_life_spec.1 [] (by decide)
  · refine engagement_half_life_spec.2.2.1 flatPoints (by decide) ?_
    intro j hj1 hj2
    have hl : flatPoints.length = 4 := by decide
    have hj : j = 3 := by omega
    subst hj
    have e1 : movingAvg3 (List.insertionSort fpLE flatPoints) 3 = 10 := by
      with_unfolding_all rfl
    have e2 : initialAttention (List.insertionSort fpLE flatPoints) = 10 := by
      with_unfolding_all rfl
    rw [e1, e2]
    norm_num

/-- C10: a session whose interaction list contains no leave interaction
yields dopamineSpikeIndex 0, attentionSpan 0 and an empty fatiguePoints
list. -/
theorem zero_leave_interactions_metrics :
    ∀ (msqrt : ℚ → ℚ) (now : ℚ) (s : ViewingSession) (l : List VideoInteraction),
    s.interactions = some l → (∀ i ∈ l, i.action ≠ Action.leave) →
    (computeMetrics msqrt now (some s)).dopamineSpikeIndex = 0 ∧
    (computeMetrics msqrt now (some s)).attentionSpan = 0 ∧
    (computeMetrics msqrt now (some s)).fatiguePoints = [] := by
  intro msqrt now s l hint hnl
  have hleave : (l.filter fun i =>
      decide (i.action = Action.leave) && dwellTruthy i.metadata) = [] :=
    List.filter_eq_nil_iff.mpr (fun a ha => by simp [hnl a ha])
  refine ⟨?_, ?_, ?_⟩
  · simp only [computeMetrics, hint]
    simp [calculateDopamineSpikeIndex, hleave]
  · simp only [computeMetrics, hint]
    simp [calculateAttentionSpan, hleave]
  · simp only [computeMetrics, hint]
    simp [generateFatiguePoints, rawFatiguePoints, hleave]

/-- Witness for the zero-leave theorem on a concrete session with enters,
a replay and a scroll but no leaves. -/
theorem zero_leave_interactions_witness :
    (computeMetrics sqrtZero 0 (some noLeaveSession)).dopamineSpikeIndex = 0 ∧
    (computeMetrics sqrtZero 0 (some noLeaveSession)).attentionSpan = 0 ∧
    (computeMetrics sqrtZero 0 (some noLeaveSession)).fatiguePoints = [] :=
  zero_leave_interactions_metrics sqrtZero 0 noLeaveSession noLeaveList rfl (by decide)


/-- C1 counterexample: a well-formed session with an empty interaction
list does not yield the all-zero default object, and its health
classification is "healthy", not "unknown" (the empty list passes the
Array.isArray guard, so the catch branch is not taken and
analyzeSessionHealth counts four healthy indicators). -/
theorem compute_metrics_empty_list_counterexample :
    (computeMetrics sqrtZero 0 (some emptyInteractionSession)).healthClassification
      = Health.healthy ∧
    (computeMetrics sqrtZero 0 (some emptyInteractionSession)).confidence = 4 / 5 ∧
    computeMetrics sqrtZero 0 (some emptyInteractionSession) ≠ defaultMetrics 0 := by
  refine ⟨?_, ?_, ?_⟩
  · with_unfolding_all rfl
  · with_unfolding_all rfl
  · have h1 : (computeMetrics sqrtZero 0 (some emptyInteractionSession)).healthClassification
        = Health.healthy := by with_unfolding_all rfl
    intro h
    rw [h] at h1
    exact absurd h1 (by simp [defaultMetrics])

/-- C1 amended: computeMetrics is total; a null/undefined session or a
non-array interactions field yields the all-zero default object with
healthClassification "unknown" and confidence 0; an empty interaction
list is handled without throwing, with zero per-interaction metrics and
confidence 0.8, but its healthClassification comes from
analyzeSessionHealth and need not be "unknown". -/
theorem compute_metrics_total_with_defaults :
    (∀ (msqrt : ℚ → ℚ) (now : ℚ), computeMetrics msqrt now none = defaultMetrics now) ∧
    (∀ (msqrt : ℚ → ℚ) (now : ℚ) (s : ViewingSession), s.interactions = none →
      computeMetrics msqrt now (some s) = defaultMetrics now) ∧
    (∀ (msqrt : ℚ → ℚ) (now : ℚ) (s : ViewingSession) (l : List VideoInteraction),
      s.interactions = some l →
      (computeMetrics msqrt now (some s)).healthClassification
        = analyzeSessionHealth (computeMetrics msqrt now (some s))) ∧
    (∀ (msqrt : ℚ → ℚ) (now : ℚ) (s : ViewingSession), s.interactions = some [] →
      (computeMetrics msqrt now (some s)).dopamineSpikeIndex = 0 ∧
      (computeMetrics msqrt now (some s)).attentionSpan = 0 ∧
      (computeMetrics msqrt now (some s)).fatiguePoints = [] ∧
      (computeMetrics msqrt now (some s)).confidence = 4 / 5) := by
  refine ⟨fun _ _ => rfl, ?_, ?_, ?_⟩
  · intro msqrt now s h
    simp only [computeMetrics, h]
  · intro msqrt now s l h
    simp only [computeMetrics, h, analyzeSessionHealth]
  · intro msqrt now s h
    refine ⟨?_, ?_, ?_, ?_⟩
    · simp only [computeMetrics, h]
      simp [calculateDopamineSpikeIndex]
    · simp only [computeMetrics, h]
      simp [calculateAttentionSpan]
    · simp only [computeMetrics, h]
      simp [generateFatiguePoints, rawFatiguePoints]
    · simp only [computeMetrics, h]

/-- Witness for the malformed-input defaults at concrete inputs. -/
theorem compute_metrics_defaults_witness :
    computeMetrics sqrtZero 0 none = defaultMetrics 0 ∧
    computeMetrics sqrtZero 0 (some nonArraySession) = defaultMetrics 0 ∧
    (computeMetrics sqrtZero 0 (some emptyInteractionSession)).healthClassification
      = analyzeSessionHealth (computeMetrics sqrtZero 0 (some emptyInteractionSession)) ∧
    (computeMetrics sqrtZero 0 (some emptyInteractionSession)).dopamineSpikeIndex = 0 :=
  ⟨compute_metrics_total_with_defaults.1 sqrtZero 0,
   compute_metrics_total_with_defaults.2.1 sqrtZero 0 nonArraySession rfl,
   compute_metrics_total_with_defaults.2.2.1 sqrtZero 0 emptyInteractionSession [] rfl,
   (compute_metrics_total_with_defaults.2.2.2 sqrtZero 0 emptyInteractionSession rfl).1⟩

/-- C6 counterexample: a session whose single interaction is a leave with
a recorded dwell time for a never-entered video produces an empty
fatiguePoints list, not one point per such leave. -/
theorem fatigue_points_orphan_counterexample :
    (computeMetrics sqrtZero 0 (some orphanLeaveSession)).fatiguePoints.length = 0 ∧
    ((orphanLeaveSession.interactions.getD []).filter fun i =>
      decide (i.action = Action.leave) && dwellTruthy i.metadata).length = 1 := by
  constructor
  · with_unfolding_all rfl
  · with_unfolding_all rfl

/-- `filterMap` of an optional-index map is a filter followed by a map. -/
theorem filterMap_option_getD {α β γ : Type _} (g : α → Option γ) (f : α → γ → β)
    (xs : List α) (d : γ) :
    xs.filterMap (fun a => (g a).map (f a)) =
      (xs.filter fun a => (g a).isSome).map (fun a => f a ((g a).getD d)) := by
  induction xs with
  | nil => rfl
  | cons a xs ih => cases h : g a <;> simp [List.filterMap_cons, List.filter_cons, h, ih]

/-- C6 amended: the fatiguePoints list holds exactly one point per leave
interaction with a recorded dwell time whose video also has an enter
interaction (a leave for a never-entered video is dropped), annotated
with the 0-based first-enter order of its video, and is sorted ascending
by that order. -/
theorem fatigue_points_spec :
    ∀ l : List VideoInteraction,
    (generateFatiguePoints l).Perm
      ((l.filter fun i => decide (i.action = Action.leave) && dwellTruthy i.metadata
          && decide (i.videoId ∈ enterSeq l)).map
        fun i =>
          { videoOrder := firstEnterOrder l i.videoId
            dwellTime := i.metadata.dwellTime.getD 0 / 1000
            timestamp := i.timestamp }) ∧
    (generateFatiguePoints l).Sorted fpLE := by
  intro l
  have hiso : ∀ v : String,
      (List.findIdx? (fun w => w == v) (enterSeq l)).isSome = decide (v ∈ enterSeq l) := by
    intro v
    rw [List.findIdx?_isSome, Bool.eq_iff_iff]
    simp only [List.any_eq_true, beq_iff_eq, decide_eq_true_eq]
    exact ⟨fun ⟨x, hx, he⟩ => he ▸ hx, fun hm => ⟨v, hm, rfl⟩⟩
  constructor
  · have heq : rawFatiguePoints l =
        ((l.filter fun i => decide (i.action = Action.leave) && dwellTruthy i.metadata
            && decide (i.videoId ∈ enterSeq l)).map
          fun i =>
            { videoOrder := firstEnterOrder l i.videoId
              dwellTime := i.metadata.dwellTime.getD 0 / 1000
              timestamp := i.timestamp }) := by
      have step1 := filterMap_option_getD
        (fun i : VideoInteraction => List.findIdx? (fun v => v == i.videoId) (enterSeq l))
        (fun (i : VideoInteraction) (order : ℕ) =>
          ({ videoOrder := order
             dwellTime := i.metadata.dwellTime.getD 0 / 1000
             timestamp := i.timestamp } : FatiguePoint))
        (l.filter fun i => decide (i.action = Action.leave) && dwellTruthy i.metadata) 0
      simp only [rawFatiguePoints]
      rw [step1, List.filter_filter]
      simp only [hiso, firstEnterOrder]
      have hpred : (l.filter fun a => decide (a.videoId ∈ enterSeq l) &&
          (decide (a.action = Action.leave) && dwellTruthy a.metadata)) =
          (l.filter fun i => decide (i.action = Action.leave) && dwellTruthy i.metadata
            && decide (i.videoId ∈ enterSeq l)) :=
        List.filter_congr (fun a _ => Bool.and_comm _ _)
      rw [hpred]
    rw [generateFatiguePoints]
    exact heq ▸ List.perm_insertionSort fpLE (rawFatiguePoints l)
  · exact List.sorted_insertionSort fpLE (rawFatiguePoints l)


/-- `sortQueue` permutes the queue. -/
theorem sortQueue_perm (q : List ScheduledAnalysis) : (sortQueue q).Perm q :=
  List.perm_insertionSort schedLE q

/-- `sortQueue` sorts the queue by (priority rank, timestamp). -/
theorem sortQueue_sorted (q : List ScheduledAnalysis) : (sortQueue q).Sorted schedLE :=
  List.sorted_insertionSort schedLE q

/-- `handleFailure` either re-adds the failed entry's sessionId to the
queue or leaves the queue unchanged. -/
theorem handleFailure_queue_cases (now : ℚ) (err : Option String)
    (a : ScheduledAnalysis) (st : SchedState) :
    ((handleFailure now err a st).analysisQueue.map ScheduledAnalysis.sessionId).Perm
      (st.analysisQueue.map ScheduledAnalysis.sessionId ++ [a.sessionId]) ∨
    (handleFailure now err a st).analysisQueue = st.analysisQueue := by
  unfold handleFailure
  split_ifs with h1 h2
  · left
    refine ((sortQueue_perm _).map _).trans ?_
    rw [List.map_append]
    simp
  · right
    rfl
  · right
    rfl

/-- `handleFailure` preserves sortedness of the queue. -/
theorem handleFailure_sorted (now : ℚ) (err : Option String)
    (a : ScheduledAnalysis) (st : SchedState)
    (h : st.analysisQueue.Sorted schedLE) :
    (handleFailure now err a st).analysisQueue.Sorted schedLE := by
  unfold handleFailure
  split_ifs with h1 h2
  · exact sortQueue_sorted _
  · exact h
  · exact h

/-- `stepEntry` either re-adds the entry's sessionId to the queue or
leaves the queue unchanged. -/
theorem stepEntry_queue_cases (now : ℚ) (fails : ScheduledAnalysis → Bool)
    (errOf : ScheduledAnalysis → Option String)
    (resultOf : ScheduledAnalysis → AIClassifier.AIClassificationResult)
    (procTime : ℚ) (st : SchedState) (a : ScheduledAnalysis) :
    ((stepEntry now fails errOf resultOf procTime st a).analysisQueue.map
        ScheduledAnalysis.sessionId).Perm
      (st.analysisQueue.map ScheduledAnalysis.sessionId ++ [a.sessionId]) ∨
    (stepEntry now fails errOf resultOf procTime st a).analysisQueue = st.analysisQueue := by
  unfold stepEntry
  split_ifs with h1 h2
  · exact handleFailure_queue_cases now (errOf a) a st
  · right
    rfl
  · right
    rfl

/-- `stepEntry` preserves sortedness of the queue. -/
theorem stepEntry_sorted (now : ℚ) (fails : ScheduledAnalysis → Bool)
    (errOf : ScheduledAnalysis → Option String)
    (resultOf : ScheduledAnalysis → AIClassifier.AIClassificationResult)
    (procTime : ℚ) (st : SchedState) (a : ScheduledAnalysis)
    (h : st.analysisQueue.Sorted schedLE) :
    (stepEntry now fails errOf resultOf procTime st a).analysisQueue.Sorted schedLE := by
  unfold stepEntry
  split_ifs with h1 h2
  · exact handleFailure_sorted now (errOf a) a st h
  · exact h
  · exact h

/-- Folding `stepEntry` over a batch keeps the queue's sessionIds
duplicate-free, provided the queue and batch ids are jointly
duplicate-free. -/
theorem foldl_stepEntry_nodup (now : ℚ) (fails : ScheduledAnalysis → Bool)
    (errOf : ScheduledAnalysis → Option String)
    (resultOf : ScheduledAnalysis → AIClassifier.AIClassificationResult)
    (procTime : ℚ) :
    ∀ (batch : List ScheduledAnalysis) (st : SchedState),
    (st.analysisQueue.map ScheduledAnalysis.sessionId ++
      batch.map ScheduledAnalysis.sessionId).Nodup →
    ((batch.foldl (stepEntry now fails errOf resultOf procTime) st).analysisQueue.map
      ScheduledAnalysis.sessionId).Nodup := by
  intro batch
  induction batch with
  | nil =>
    intro st h
    simpa using h
  | cons a bs ih =>
    intro st h
    rw [List.foldl_cons]
    apply ih
    rcases stepEntry_queue_cases now fails errOf resultOf procTime st a with hperm | heq
    · have hsplit : ((st.analysisQueue.map ScheduledAnalysis.sessionId ++ [a.sessionId]) ++
          bs.map ScheduledAnalysis.sessionId).Nodup := by
        simpa [List.append_assoc] using h
      exact ((hperm.append (List.Perm.refl (bs.map ScheduledAnalysis.sessionId))).symm.nodup
        hsplit)
    · rw [heq]
      refine List.Nodup.sublist ?_ h
      rw [List.map_cons]
      exact List.Sublist.append_left
        (List.sublist_cons_self a.sessionId (bs.map ScheduledAnalysis.sessionId)) _

/-- Folding `stepEntry` over a batch preserves sortedness of the queue. -/
theorem foldl_stepEntry_sorted (now : ℚ) (fails : ScheduledAnalysis → Bool)
    (errOf : ScheduledAnalysis → Option String)
    (resultOf : ScheduledAnalysis → AIClassifier.AIClassificationResult)
    (procTime : ℚ) :
    ∀ (batch : List ScheduledAnalysis) (st : SchedState),
    st.analysisQueue.Sorted schedLE →
    ((batch.foldl (stepEntry now fails errOf resultOf procTime) st).analysisQueue).Sorted
      schedLE := by
  intro batch
  induction batch with
  | nil =>
    intro st h
    simpa using h
  | cons a bs ih =>
    intro st h
    rw [List.foldl_cons]
    exact ih _ (stepEntry_sorted now fails errOf resultOf procTime st a h)

/-- Every reachable scheduler state has duplicate-free sessionIds and a
queue sorted by (priority rank, timestamp). -/
theorem reachable_invariant : ∀ st : SchedState, Reachable st →
    (st.analysisQueue.map ScheduledAnalysis.sessionId).Nodup ∧
    st.analysisQueue.Sorted schedLE := by
  intro st h
  induction h with
  | init =>
    exact ⟨List.nodup_nil, List.sorted_nil⟩
  | schedule session metrics priority now hasCallback st hst ih =>
    constructor
    · simp only [scheduleAnalysis]
      refine ((sortQueue_perm _).map ScheduledAnalysis.sessionId).symm.nodup ?_
      rw [List.map_append]
      simp only [List.map_cons, List.map_nil]
      refine List.Nodup.append ?_ (List.nodup_singleton _) ?_
      · exact List.Nodup.sublist ((List.filter_sublist _).map _) ih.1
      · intro x hx1 hx2
        rw [List.mem_singleton] at hx2
        rw [List.mem_map] at hx1
        obtain ⟨b, hb, hbx⟩ := hx1
        rw [List.mem_filter] at hb
        have hbne : b.sessionId ≠ session.id := by
          simpa using hb.2
        exact hbne (hbx.trans hx2)
    · exact sortQueue_sorted _
  | tick now fails errOf resultOf procTime st hst ih =>
    by_cases hq : st.analysisQueue.isEmpty
    · constructor
      · simpa [AIScheduler.tick, hq] using ih.1
      · simpa [AIScheduler.tick, hq] using ih.2
    · have htick : AIScheduler.tick now fails errOf resultOf procTime st =
          (st.analysisQueue.take batchSize).foldl
            (stepEntry now fails errOf resultOf procTime)
            { st with analysisQueue := st.analysisQueue.drop batchSize } := by
        unfold AIScheduler.tick
        rw [if_neg hq]
      rw [htick]
      constructor
      · apply foldl_stepEntry_nodup
        have hids : (st.analysisQueue.map ScheduledAnalysis.sessionId).Nodup := ih.1
        have hsplit : st.analysisQueue.map ScheduledAnalysis.sessionId =
            (st.analysisQueue.take batchSize).map ScheduledAnalysis.sessionId ++
            (st.analysisQueue.drop batchSize).map ScheduledAnalysis.sessionId := by
          rw [← List.map_append, List.take_append_drop]
        rw [hsplit] at hids
        exact List.perm_append_comm.nodup hids
      · apply foldl_stepEntry_sorted
        exact List.Pairwise.sublist (List.drop_sublist _ _) ih.2
  | clearSession sessionId st hst ih =>
    constructor
    · exact List.Nodup.sublist ((List.filter_sublist _).map _) ih.1
    · exact List.Pairwise.sublist (List.filter_sublist _) ih.2
  | clear st hst ih =>
    exact ⟨List.nodup_nil, List.sorted_nil⟩


/-- C2: in every reachable scheduler state, under every sequence of
schedule, tick (including failing batches that re-enqueue retries),
clear-session and clear-queue operations, the queue holds at most one
entry per sessionId; and scheduleAnalysis replaces any queued entry with
the same sessionId by the new entry. -/
theorem queue_unique_per_session :
    (∀ st : SchedState, Reachable st →
      (st.analysisQueue.map ScheduledAnalysis.sessionId).Nodup) ∧
    (∀ (session : ViewingSession) (metrics : ComputedMetrics) (priority : SchedPriority)
        (now : ℚ) (hasCallback : Bool) (st : SchedState),
      ((scheduleAnalysis session metrics priority now hasCallback st).analysisQueue).Perm
        ({ sessionId := session.id
           session := session
           metrics := metrics
           priority := priority
           timestamp := now
           retryCount := 0 } ::
          st.analysisQueue.filter fun a => a.sessionId != session.id)) := by
  constructor
  · intro st h
    exact (reachable_invariant st h).1
  · intro session metrics priority now hasCallback st
    simp only [scheduleAnalysis]
    exact (sortQueue_perm _).trans (List.perm_append_singleton _ _)

/-- Witness: the uniqueness invariant at the reachable three-entry state,
and replacement at a concrete schedule call. -/
theorem queue_unique_witness :
    (prioScenario.analysisQueue.map ScheduledAnalysis.sessionId).Nodup ∧
    ((scheduleAnalysis (idSession "a") zeroMetrics SchedPriority.low 1 false
        initState).analysisQueue).Perm
      ({ sessionId := (idSession "a").id
         session := idSession "a"
         metrics := zeroMetrics
         priority := SchedPriority.low
         timestamp := 1
         retryCount := 0 } ::
        initState.analysisQueue.filter fun a => a.sessionId != (idSession "a").id) :=
  ⟨queue_unique_per_session.1 prioScenario
    (Reachable.schedule _ _ _ _ _ _ (Reachable.schedule _ _ _ _ _ _
      (Reachable.schedule _ _ _ _ _ _ Reachable.init))),
   queue_unique_per_session.2 (idSession "a") zeroMetrics SchedPriority.low 1 false initState⟩

/-- C8: every reachable scheduler state has its queue ordered by priority
rank (high, normal, low) then timestamp ascending; in particular,
scheduling entries with priorities low, high, normal at increasing
timestamps makes the next dequeued batch come out high, normal, low. -/
theorem queue_ordering :
    (∀ st : SchedState, Reachable st → st.analysisQueue.Sorted schedLE) ∧
    (prioScenario.analysisQueue.take batchSize).map (fun a => a.priority) =
      [SchedPriority.high, SchedPriority.normal, SchedPriority.low] ∧
    (prioScenario.analysisQueue.take batchSize).map ScheduledAnalysis.sessionId =
      ["b", "c", "a"] := by
  refine ⟨fun st h => (reachable_invariant st h).2, ?_, ?_⟩
  · with_unfolding_all rfl
  · with_unfolding_all rfl

/-- Witness: sortedness of the reachable three-entry state. -/
theorem queue_ordering_witness : prioScenario.analysisQueue.Sorted schedLE :=
  queue_ordering.1 prioScenario
    (Reachable.schedule _ _ _ _ _ _ (Reachable.schedule _ _ _ _ _ _
      (Reachable.schedule _ _ _ _ _ _ Reachable.init)))

/-- C3: while the incremented retryCount stays at most 3, a failed entry
is re-enqueued with the incremented count, priority demoted to low and
timestamp pushed to now + retryCount × 2 s, firing no callback; once it
has failed with retryCount already 3 (a fourth failure), it is never
re-enqueued: the registered callback fires exactly once with
classification "unknown", confidence 0 and an error message, and its
registration is removed; with no registration left nothing happens. The
concrete trace fails one entry four times and observes exactly one
terminal callback. -/
theorem retry_bound_and_terminal_callback :
    (∀ (now : ℚ) (err : Option String) (a : ScheduledAnalysis) (st : SchedState),
      a.retryCount + 1 ≤ maxRetries →
      (handleFailure now err a st).analysisQueue.Perm
        ({ a with
           retryCount := a.retryCount + 1
           priority := SchedPriority.low
           timestamp := now + ((a.retryCount + 1 : ℕ) : ℚ) * 2000 } :: st.analysisQueue) ∧
      (handleFailure now err a st).callbacks = st.callbacks ∧
      (handleFailure now err a st).firedEvents = st.firedEvents) ∧
    (∀ (now : ℚ) (err : Option String) (a : ScheduledAnalysis) (st : SchedState),
      maxRetries ≤ a.retryCount → a.sessionId ∈ st.callbacks →
      handleFailure now err a st =
        { st with
          callbacks := st.callbacks.filter fun c => c != a.sessionId
          firedEvents := st.firedEvents ++ [terminalResult a err] }) ∧
    (∀ (now : ℚ) (err : Option String) (a : ScheduledAnalysis) (st : SchedState),
      maxRetries ≤ a.retryCount → a.sessionId ∉ st.callbacks →
      handleFailure now err a st = st) ∧
    (retryScenario4.analysisQueue = [] ∧
     retryScenario4.callbacks = [] ∧
     retryScenario4.firedEvents.map
        (fun e => (e.sessionId, e.result.classification, e.result.confidence,
          e.result.modelVersion, e.success, e.error)) =
       [("s", Health.unknown, 0, "failed", false, some "boom")] ∧
     (failTick 3000 (failTick 2000 (failTick 1000 retryScenario0))).analysisQueue.map
        (fun a => (a.retryCount, a.priority, a.timestamp)) =
       [(3, SchedPriority.low, 9000)]) := by
  refine ⟨?_, ?_, ?_, ?_, ?_, ?_, ?_⟩
  · intro now err a st h
    have he : handleFailure now err a st =
        { st with analysisQueue := sortQueue (st.analysisQueue ++
            [{ a with
               retryCount := a.retryCount + 1
               priority := SchedPriority.low
               timestamp := now + ((a.retryCount + 1 : ℕ) : ℚ) * 2000 }]) } := by
      unfold handleFailure
      rw [if_pos h]
    rw [he]
    exact ⟨(sortQueue_perm _).trans (List.perm_append_singleton _ _), rfl, rfl⟩
  · intro now err a st h hmem
    unfold handleFailure
    rw [if_neg (by omega), if_pos hmem]
  · intro now err a st h hmem
    unfold handleFailure
    rw [if_neg (by omega), if_neg hmem]
  · with_unfolding_all rfl
  · with_unfolding_all rfl
  · with_unfolding_all rfl
  · with_unfolding_all rfl

/-- Witness: a first failure is re-enqueued with the backoff fields, and a
fourth failure with no registered callback is dropped silently. -/
theorem retry_bound_witness :
    (handleFailure 0 none probeEntry0 initState).analysisQueue.Perm
      ({ probeEntry0 with
         retryCount := probeEntry0.retryCount + 1
         priority := SchedPriority.low
         timestamp := 0 + ((probeEntry0.retryCount + 1 : ℕ) : ℚ) * 2000 } ::
        initState.analysisQueue) ∧
    handleFailure 0 none probeEntry3 initState = initState :=
  ⟨(retry_bound_and_terminal_callback.1 0 none probeEntry0 initState (by decide)).1,
   retry_bound_and_terminal_callback.2.2.1 0 none probeEntry3 initState (by decide)
     (by decide)⟩

end NeuroScroll
